import Mathlib

/-!
Verification development for the yocto-test simulated GNSS/PPS peripherals.

The embedding below follows `src/sw/module/gps-sim/gps-sim.c` and
`src/sw/module/pps-sim/pps-sim.c`.  C `int` arithmetic is modelled with
`Nat`/`Int`: every quantity involved stays far below `2^31`, so no wraparound
is reachable in the modelled code paths (the 32-bit PPS counter wraparound is
documented by the spec as an out-of-scope edge case).  Randomness
(`get_random_u32()`) is modelled by explicit draw parameters; the C code
reduces each draw with `% 20`, `% 2`, `% 100` or `% 5` and those reductions are
kept in the definitions.
-/

namespace GpsSim

/-- Simulated wall-clock time of day: the `gps_hour` / `gps_min` / `gps_sec`
globals of gps-sim.c. -/
structure SimClock where
  hour : Nat
  min : Nat
  sec : Nat
deriving DecidableEq, Repr

/-- The time-advance block of `gps_simulate_nmea` (lines 126-137):
increment seconds, carry into minutes, then hours, wrapping at 24. -/
def tickClock (c : SimClock) : SimClock :=
  let sec := c.sec + 1
  if sec ≥ 60 then
    let min := c.min + 1
    if min ≥ 60 then
      let hour := c.hour + 1
      if hour ≥ 24 then ⟨0, 0, 0⟩ else ⟨hour, 0, 0⟩
    else ⟨c.hour, min, 0⟩
  else ⟨c.hour, c.min, sec⟩

/-- Total seconds since midnight; used to state clock monotonicity. -/
def totalSecs (c : SimClock) : Nat :=
  c.hour * 3600 + c.min * 60 + c.sec

/-- One coordinate's derived fields (`lat_deg`/`lat_min_int`/`lat_min_frac`
and the `lon_*` counterparts). -/
structure Coord where
  deg : Nat
  minInt : Nat
  minFrac : Nat
deriving DecidableEq, Repr

/-- Derivation of one coordinate from a signed micro-degree value, as in
`update_coordinates_from_param` (gps-sim.c lines 82-97):
`abs = |v|`, `deg = abs / 1000000`, `min_part = (abs % 1000000) * 60`,
`min_int = min_part / 1000000`, `min_frac = (min_part % 1000000) / 100`.
All intermediate values fit in a C `int`. -/
def deriveCoord (v : Int) : Coord :=
  let a : Nat := if v < 0 then (-v).toNat else v.toNat
  let deg := a / 1000000
  let minPart := (a % 1000000) * 60
  ⟨deg, minPart / 1000000, (minPart % 1000000) / 100⟩

/-- Module parameters of gps-sim.c: `start_lat`, `start_lon` (micro-degrees),
`error_rate` (percent), `signal_loss`. -/
structure GpsConfig where
  start_lat : Int
  start_lon : Int
  error_rate : Nat
  signal_loss : Bool
deriving DecidableEq, Repr

/-- The simulated position state: `lat_deg`, `lat_min_int`, `lat_min_frac`,
`lon_deg`, `lon_min_int`, `lon_min_frac`.  The fractional parts are `Int`
because the C code lets them go negative transiently before clamping. -/
structure GpsPos where
  latDeg : Nat
  latMinInt : Nat
  latMinFrac : Int
  lonDeg : Nat
  lonMinInt : Nat
  lonMinFrac : Int
deriving DecidableEq, Repr

/-- `update_coordinates_from_param`: recompute the whole position from the
module parameters. -/
def update_coordinates_from_param (cfg : GpsConfig) : GpsPos :=
  let la := deriveCoord cfg.start_lat
  let lo := deriveCoord cfg.start_lon
  ⟨la.deg, la.minInt, (la.minFrac : Int), lo.deg, lo.minInt, (lo.minFrac : Int)⟩

/-- The two clamping `if`s applied to a fractional-minute value
(gps-sim.c lines 154-162): first raise negatives to 0, then cap at 9999. -/
def clampFrac (x : Int) : Int :=
  let y := if x < 0 then 0 else x
  if y > 9999 then 9999 else y

/-- Jitter application (lines 142-152): `jitter = draw % 20` (0..19) and a
second draw's parity chooses addition or subtraction. -/
def applyJitter (frac : Int) (jitterDraw : Nat) (add : Bool) : Int :=
  let jitter : Nat := jitterDraw % 20
  if add then frac + (jitter : Int) else frac - (jitter : Int)

/-- The random draws consumed by one tick's coordinate update: a magnitude
draw and a sign draw for each of latitude and longitude. -/
structure TickRand where
  latJit : Nat
  latAdd : Bool
  lonJit : Nat
  lonAdd : Bool
deriving DecidableEq, Repr

/-- Full simulator state mutated by the timer callback. -/
structure GpsState where
  clock : SimClock
  pos : GpsPos
deriving DecidableEq, Repr

/-- The state-update prefix of `gps_simulate_nmea` (lines 122-162):
re-derive the coordinates from the module parameters, advance the clock by
one second, apply signed jitter to both fractional minutes, then clamp both
to [0, 9999]. -/
def gpsTickCoords (cfg : GpsConfig) (r : TickRand) (s : GpsState) : GpsState :=
  let pos := update_coordinates_from_param cfg
  let clock := tickClock s.clock
  let latFrac := clampFrac (applyJitter pos.latMinFrac r.latJit r.latAdd)
  let lonFrac := clampFrac (applyJitter pos.lonMinFrac r.lonJit r.lonAdd)
  ⟨clock, ⟨pos.latDeg, pos.latMinInt, latFrac, pos.lonDeg, pos.lonMinInt, lonFrac⟩⟩

/-- Zero-padded fixed-width decimal rendering: `printf` `%0wd` for a
non-negative value (every value rendered by the driver is non-negative at
render time, the fractions having been clamped). -/
def padNat (w n : Nat) : String :=
  let s := toString n
  String.mk (List.replicate (w - s.length) '0') ++ s

/-- The `%02d%02d%02d` time group of the sentence formats. -/
def timeField (c : SimClock) : String :=
  padNat 2 c.hour ++ padNat 2 c.min ++ padNat 2 c.sec

/-- The `%02d%02d.%04d` latitude group. -/
def latField (deg minI frac : Nat) : String :=
  padNat 2 deg ++ padNat 2 minI ++ "." ++ padNat 4 frac

/-- The `%03d%02d.%04d` longitude group. -/
def lonField (deg minI frac : Nat) : String :=
  padNat 3 deg ++ padNat 2 minI ++ "." ++ padNat 4 frac

/-- The GNGGA sentence body as its comma-separated field list
(gps-sim.c lines 164-187).  With `signal_loss` clear the first `snprintf`
emits a literal fix-quality `1`; with it set the body is regenerated with
`(signal_loss ? 0 : 1) = 0`. -/
def ggaFields (sl : Bool) (c : SimClock) (latDeg latMinI latFrac : Nat)
    (south : Bool) (lonDeg lonMinI lonFrac : Nat) (west : Bool) : List String :=
  ["GNGGA", timeField c, latField latDeg latMinI latFrac,
   if south then "S" else "N",
   lonField lonDeg lonMinI lonFrac,
   if west then "W" else "E",
   toString (if sl then (0 : Nat) else 1),
   "08", "0.9", "545.4", "M", "46.9", "M", "", ""]

/-- The GNGGA body string: the fields joined by the commas of the format
string. -/
def ggaContent (sl : Bool) (c : SimClock) (latDeg latMinI latFrac : Nat)
    (south : Bool) (lonDeg lonMinI lonFrac : Nat) (west : Bool) : String :=
  String.intercalate "," (ggaFields sl c latDeg latMinI latFrac south lonDeg lonMinI lonFrac west)

/-- GNGGA body for a configuration and state, with the hemisphere letters
taken from the signs of `start_lat` / `start_lon` as at lines 170-171. -/
def ggaContentOf (cfg : GpsConfig) (s : GpsState) : String :=
  ggaContent cfg.signal_loss s.clock s.pos.latDeg s.pos.latMinInt s.pos.latMinFrac.toNat
    (decide (cfg.start_lat < 0)) s.pos.lonDeg s.pos.lonMinInt s.pos.lonMinFrac.toNat
    (decide (cfg.start_lon < 0))

/-- The GNRMC sentence body (gps-sim.c lines 207-230).  With `signal_loss`
clear the first `snprintf` emits a literal status `A`; with it set the body is
regenerated with `(signal_loss ? 'V' : 'A') = 'V'`. -/
def rmcFields (sl : Bool) (c : SimClock) (latDeg latMinI latFrac : Nat)
    (south : Bool) (lonDeg lonMinI lonFrac : Nat) (west : Bool) : List String :=
  ["GNRMC", timeField c,
   if sl then "V" else "A",
   latField latDeg latMinI latFrac,
   if south then "S" else "N",
   lonField lonDeg lonMinI lonFrac,
   if west then "W" else "E",
   "0.5", "0.0", "100226", "", "", "A"]

/-- The GNGSA sentence body (gps-sim.c lines 246-251): fixed auto mode and
PRN/DOP fields, fix-type `(signal_loss ? 1 : 3)`. -/
def gsaFields (sl : Bool) : List String :=
  ["GNGSA", "A", toString (if sl then (1 : Nat) else 3),
   "01", "03", "06", "12", "17", "28",
   "", "", "", "", "", "",
   "1.5", "1.0", "1.2"]

/-- One entry of the static constellation table `sats` of gps-sim.c. -/
structure GpsSat where
  prn : Nat
  elev : Nat
  az : Nat
  snr : Nat
deriving DecidableEq, Repr

/-- The fixed 8-entry virtual constellation (gps-sim.c lines 76-79). -/
def sats : List GpsSat :=
  [⟨1, 45, 120, 30⟩, ⟨3, 60, 210, 35⟩, ⟨6, 30, 45, 25⟩, ⟨9, 15, 300, 20⟩,
   ⟨12, 70, 180, 40⟩, ⟨17, 25, 90, 28⟩, ⟨22, 10, 270, 15⟩, ⟨28, 50, 330, 32⟩]

/-- SNR of one satellite in a GSV message (lines 273-280):
`(base_snr + draw % 5) * (signal_loss ? 0 : 1)`. -/
def gsvSnr (sl : Bool) (base draw : Nat) : Nat :=
  (base + draw % 5) * (if sl then 0 else 1)

/-- The four fields contributed by one satellite to a GSV body:
`%02d,%02d,%03d,%02d` for PRN, elevation, azimuth, SNR. -/
def satFields (s : GpsSat) (snrVal : Nat) : List String :=
  [padNat 2 s.prn, padNat 2 s.elev, padNat 3 s.az, padNat 2 snrVal]

/-- The GNGSV body for message `msg` (0 or 1 in the driver's loop), covering
satellites `msg*4 .. msg*4+3` (gps-sim.c lines 267-290). -/
def gsvFields (sl : Bool) (msg : Nat) (r0 r1 r2 r3 : Nat) : List String :=
  let dflt : GpsSat := ⟨0, 0, 0, 0⟩
  let s0 := sats.getD (msg * 4) dflt
  let s1 := sats.getD (msg * 4 + 1) dflt
  let s2 := sats.getD (msg * 4 + 2) dflt
  let s3 := sats.getD (msg * 4 + 3) dflt
  ["GNGSV", "2", toString (msg + 1), "08"]
    ++ satFields s0 (gsvSnr sl s0.snr r0)
    ++ satFields s1 (gsvSnr sl s1.snr r1)
    ++ satFields s2 (gsvSnr sl s2.snr r2)
    ++ satFields s3 (gsvSnr sl s3.snr r3)

/-- `nmea_checksum` (gps-sim.c lines 105-110): XOR-fold of every byte of the
body.  Bodies are ASCII, so each `Char.toNat` is the byte value. -/
def nmea_checksum (s : String) : Nat :=
  s.data.foldl (fun c ch => Nat.xor c ch.toNat) 0

/-- One uppercase hexadecimal digit, as produced by `%02X`. -/
def hexDigit (d : Nat) : Char :=
  if d < 10 then Char.ofNat (48 + d) else Char.ofNat (55 + d)

/-- Two-digit uppercase hexadecimal rendering of a byte (`%02X` on an
`unsigned char`, hence a value below 256). -/
def hexByte (n : Nat) : String :=
  String.mk [hexDigit (n / 16 % 16), hexDigit (n % 16)]

/-- The checksum actually rendered for one sentence (lines 189-194): the XOR
checksum, incremented by one (as an `unsigned char`, hence mod 256) when the
per-sentence draw `% 100` is below `error_rate`. -/
def finalChecksum (content : String) (draw errorRate : Nat) : Nat :=
  if draw % 100 < errorRate then (nmea_checksum content + 1) % 256
  else nmea_checksum content

/-- Full wire sentence: `"$%s*%02X\r\n"` applied to the body and the
(possibly corrupted) checksum. -/
def renderSentence (content : String) (draw errorRate : Nat) : String :=
  "$" ++ content ++ "*" ++ hexByte (finalChecksum content draw errorRate) ++ "\r\n"

end GpsSim

namespace PpsSim

/-- `pps_timer_func` (pps-sim.c lines 29-33): increment the shared event
counter, then wake every waiter.  The counter is a kernel `atomic_t`; the
spec documents 32-bit wraparound as an out-of-scope edge case, so the counter
is modelled as an unbounded `Nat`. -/
def pps_timer_func (counter : Nat) : Nat := counter + 1

/-- `pps_open` (lines 35-46): allocate a per-consumer cursor and initialise it
with the counter's current value, so the first read blocks for the next
event.  The allocation-failure path (-ENOMEM) is out of scope here. -/
def pps_open (counter : Nat) : Nat := counter

/-- Outcome of one `pps_read` attempt.  `delivered` carries the event id, the
bytes copied to the caller and the returned length; `interrupted` is the
`wait_event_interruptible` signal path (a negative errno, no bytes);
`blocked` means the wait predicate is false and no signal is pending, so the
caller stays suspended. -/
inductive PpsOutcome where
  | delivered (eventId : Nat) (bytes : List Char) (retLen : Nat)
  | interrupted
  | blocked
deriving DecidableEq, Repr

/-- The `"%d\n"` rendering of the event counter into `kbuf`
(pps-sim.c line 72), as its byte (character) list. -/
def renderEvent (n : Nat) : List Char :=
  (toString n).data ++ ['\n']

/-- `pps_read` (lines 53-81) as a function of the cursor value, the counter
value observed by the wait predicate, whether a signal is pending while the
predicate is false, and the caller's buffer size `count`.
`wait_event_interruptible` evaluates the predicate `counter > *last_seen`
first: when it holds the read proceeds (rendering the event, truncating to
`count`, updating the cursor); otherwise a pending signal makes it return the
error before any bytes are produced or the cursor is touched; otherwise the
caller remains blocked.  The second component is the cursor value after the
attempt.  The `copy_to_user` failure path (-EFAULT) is out of scope. -/
def pps_read (last_seen counter : Nat) (sig : Bool) (count : Nat) :
    PpsOutcome × Nat :=
  if last_seen < counter then
    let kbuf := renderEvent counter
    let len := min kbuf.length count
    (.delivered counter (kbuf.take len) len, counter)
  else if sig then (.interrupted, last_seen)
  else (.blocked, last_seen)

end PpsSim

namespace GpsSim

/-- Helper: an XOR fold of byte values stays below 256. -/
lemma foldl_xor_lt (l : List Char) (acc : Nat) (hacc : acc < 256)
    (h : ∀ c ∈ l, c.toNat < 256) :
    l.foldl (fun c ch => Nat.xor c ch.toNat) acc < 256 := by
  induction l generalizing acc with
  | nil => simpa using hacc
  | cons x xs ih =>
      have hx : x.toNat < 256 := h x (by simp)
      have hxs : ∀ c ∈ xs, c.toNat < 256 := fun c hc => h c (by simp [hc])
      have hstep : Nat.xor acc x.toNat < 256 :=
        Nat.xor_lt_two_pow (show acc < 2 ^ 8 from hacc) (show x.toNat < 2 ^ 8 from hx)
      simpa using ih (Nat.xor acc x.toNat) hstep hxs

/-- Helper: the in-range/at-most-9999 property of the clamping step. -/
lemma clampFrac_mem (x : Int) : 0 ≤ clampFrac x ∧ clampFrac x ≤ 9999 := by
  simp only [clampFrac]
  split_ifs <;> omega

/-- Helper: the jitter step adds a signed offset of magnitude at most 19. -/
lemma applyJitter_form (frac : Int) (j : Nat) (b : Bool) :
    ∃ d : Int, d.natAbs ≤ 19 ∧ applyJitter frac j b = frac + d := by
  refine ⟨if b then ((j % 20 : Nat) : Int) else -((j % 20 : Nat) : Int), ?_, ?_⟩
  · cases b <;> simp <;> omega
  · cases b <;> simp [applyJitter, sub_eq_add_neg]

/-- Helper: the latitude fraction produced by one tick. -/
lemma gpsTick_latMinFrac (cfg : GpsConfig) (r : TickRand) (s : GpsState) :
    (gpsTickCoords cfg r s).pos.latMinFrac =
      clampFrac (applyJitter ((deriveCoord cfg.start_lat).minFrac : Int) r.latJit r.latAdd) := rfl

/-- Helper: the longitude fraction produced by one tick. -/
lemma gpsTick_lonMinFrac (cfg : GpsConfig) (r : TickRand) (s : GpsState) :
    (gpsTickCoords cfg r s).pos.lonMinFrac =
      clampFrac (applyJitter ((deriveCoord cfg.start_lon).minFrac : Int) r.lonJit r.lonAdd) := rfl

/-- Claim C1: with start_lat = -35315075 and start_lon = 149129404, the
coordinate derivation followed by position-sentence formatting at clock time
12:35:19 (no jitter, signal_loss false) yields exactly the body
"GNGGA,123519,3518.9045,S,14907.7642,E,1,08,0.9,545.4,M,46.9,M,,". -/
theorem C1_position_body :
    ggaContentOf ⟨-35315075, 149129404, 0, false⟩
      ⟨⟨12, 35, 19⟩, update_coordinates_from_param ⟨-35315075, 149129404, 0, false⟩⟩
      = "GNGGA,123519,3518.9045,S,14907.7642,E,1,08,0.9,545.4,M,46.9,M,," := by
  decide

/-- Claim C2: for each sentence one draw in 0..99 is taken; the rendered
checksum digits equal the XOR of the body when the draw is at least
error_rate, and (XOR + 1) mod 256 when the draw is below it; hence with
error_rate 0 no sentence is corrupted and with error_rate 100 every sentence
is. -/
theorem C2_checksum_behaviour (content : String) (draw er : Nat)
    (hascii : ∀ ch ∈ content.data, ch.toNat < 256) (hdraw : draw < 100) :
    nmea_checksum content < 256 ∧
    (er ≤ draw → renderSentence content draw er =
      "$" ++ content ++ "*" ++ hexByte (nmea_checksum content) ++ "\r\n") ∧
    (draw < er → renderSentence content draw er =
      "$" ++ content ++ "*" ++ hexByte ((nmea_checksum content + 1) % 256) ++ "\r\n") ∧
    renderSentence content draw 0 =
      "$" ++ content ++ "*" ++ hexByte (nmea_checksum content) ++ "\r\n" ∧
    renderSentence content draw 100 =
      "$" ++ content ++ "*" ++ hexByte ((nmea_checksum content + 1) % 256) ++ "\r\n" := by
  have hmod : draw % 100 = draw := Nat.mod_eq_of_lt hdraw
  refine ⟨?_, ?_, ?_, ?_, ?_⟩
  · exact foldl_xor_lt content.data 0 (by norm_num) hascii
  · intro h
    simp only [renderSentence, finalChecksum, hmod, if_neg (Nat.not_lt.mpr h)]
  · intro h
    simp only [renderSentence, finalChecksum, hmod, if_pos h]
  · simp only [renderSentence, finalChecksum, hmod, if_neg (Nat.not_lt_zero draw)]
  · simp only [renderSentence, finalChecksum, hmod, if_pos hdraw]

/-- Witness for C2 at a concrete body and draw. -/
theorem C2_checksum_behaviour_witness :
    nmea_checksum "GNGSA,A,3" < 256 ∧
    (50 ≤ 7 → renderSentence "GNGSA,A,3" 7 50 =
      "$" ++ "GNGSA,A,3" ++ "*" ++ hexByte (nmea_checksum "GNGSA,A,3") ++ "\r\n") ∧
    (7 < 50 → renderSentence "GNGSA,A,3" 7 50 =
      "$" ++ "GNGSA,A,3" ++ "*" ++ hexByte ((nmea_checksum "GNGSA,A,3" + 1) % 256) ++ "\r\n") ∧
    renderSentence "GNGSA,A,3" 7 0 =
      "$" ++ "GNGSA,A,3" ++ "*" ++ hexByte (nmea_checksum "GNGSA,A,3") ++ "\r\n" ∧
    renderSentence "GNGSA,A,3" 7 100 =
      "$" ++ "GNGSA,A,3" ++ "*" ++ hexByte ((nmea_checksum "GNGSA,A,3" + 1) % 256) ++ "\r\n" :=
  C2_checksum_behaviour "GNGSA,A,3" 7 50 (by decide) (by decide)

/-- Claim C3: from any in-range time the tick advances the clock by exactly
one second, with carry seconds→minutes→hours, wrapping 23:59:59 to 00:00:00;
the fields stay in range and the time-of-day moves forward by one second
modulo 86400 (never backward). -/
theorem C3_clock_advance (c : SimClock)
    (hh : c.hour < 24) (hm : c.min < 60) (hs : c.sec < 60) :
    (tickClock c).hour < 24 ∧ (tickClock c).min < 60 ∧ (tickClock c).sec < 60 ∧
    totalSecs (tickClock c) = (totalSecs c + 1) % 86400 ∧
    tickClock ⟨23, 59, 59⟩ = ⟨0, 0, 0⟩ := by
  obtain ⟨h, m, s⟩ := c
  refine ⟨?_, ?_, ?_, ?_, by decide⟩ <;>
    · simp only [tickClock, totalSecs] at *
      split_ifs <;> simp_all <;> omega

/-- Witness for C3 at 12:35:19. -/
theorem C3_clock_advance_witness :
    (tickClock ⟨12, 35, 19⟩).hour < 24 ∧ (tickClock ⟨12, 35, 19⟩).min < 60 ∧
    (tickClock ⟨12, 35, 19⟩).sec < 60 ∧
    totalSecs (tickClock ⟨12, 35, 19⟩) = (totalSecs ⟨12, 35, 19⟩ + 1) % 86400 ∧
    tickClock ⟨23, 59, 59⟩ = ⟨0, 0, 0⟩ :=
  C3_clock_advance ⟨12, 35, 19⟩ (by decide) (by decide) (by decide)

/-- Claim C4: each tick adds an independent signed jitter of magnitude at
most 19 to each fractional-minute value; after clamping both lie in
[0, 9999] whatever the pre-clamp value was, and the whole-minute fields see
no carry from the jitter. -/
theorem C4_jitter_clamp (cfg : GpsConfig) (r : TickRand) (s : GpsState) (x : Int) :
    (0 ≤ clampFrac x ∧ clampFrac x ≤ 9999) ∧
    0 ≤ (gpsTickCoords cfg r s).pos.latMinFrac ∧
    (gpsTickCoords cfg r s).pos.latMinFrac ≤ 9999 ∧
    0 ≤ (gpsTickCoords cfg r s).pos.lonMinFrac ∧
    (gpsTickCoords cfg r s).pos.lonMinFrac ≤ 9999 ∧
    (gpsTickCoords cfg r s).pos.latMinInt = (deriveCoord cfg.start_lat).minInt ∧
    (gpsTickCoords cfg r s).pos.lonMinInt = (deriveCoord cfg.start_lon).minInt ∧
    ∃ dLat dLon : Int, dLat.natAbs ≤ 19 ∧ dLon.natAbs ≤ 19 ∧
      (gpsTickCoords cfg r s).pos.latMinFrac =
        clampFrac (((deriveCoord cfg.start_lat).minFrac : Int) + dLat) ∧
      (gpsTickCoords cfg r s).pos.lonMinFrac =
        clampFrac (((deriveCoord cfg.start_lon).minFrac : Int) + dLon) := by
  obtain ⟨dLat, hdLat, hLat⟩ :=
    applyJitter_form ((deriveCoord cfg.start_lat).minFrac : Int) r.latJit r.latAdd
  obtain ⟨dLon, hdLon, hLon⟩ :=
    applyJitter_form ((deriveCoord cfg.start_lon).minFrac : Int) r.lonJit r.lonAdd
  refine ⟨clampFrac_mem x, ?_, ?_, ?_, ?_, rfl, rfl,
    dLat, dLon, hdLat, hdLon, ?_, ?_⟩
  · rw [gpsTick_latMinFrac]; exact (clampFrac_mem _).1
  · rw [gpsTick_latMinFrac]; exact (clampFrac_mem _).2
  · rw [gpsTick_lonMinFrac]; exact (clampFrac_mem _).1
  · rw [gpsTick_lonMinFrac]; exact (clampFrac_mem _).2
  · rw [gpsTick_latMinFrac, hLat]
  · rw [gpsTick_lonMinFrac, hLon]

/-- Claim C5: with signal_loss set, the GGA fix-quality field is "0" (versus
"1" when clear), the RMC status field is "V", the GSA fix-mode field is "1"
(versus "3"), and every GSV SNR field is zero ("00"). -/
theorem C5_signal_loss_fields (c : SimClock) (laD laM laF : Nat) (so : Bool)
    (loD loM loF : Nat) (we : Bool) (msg r0 r1 r2 r3 : Nat) :
    (ggaFields true c laD laM laF so loD loM loF we)[6]? = some "0" ∧
    (ggaFields false c laD laM laF so loD loM loF we)[6]? = some "1" ∧
    (rmcFields true c laD laM laF so loD loM loF we)[2]? = some "V" ∧
    (gsaFields true)[2]? = some "1" ∧
    (gsaFields false)[2]? = some "3" ∧
    (gsvFields true msg r0 r1 r2 r3)[7]? = some "00" ∧
    (gsvFields true msg r0 r1 r2 r3)[11]? = some "00" ∧
    (gsvFields true msg r0 r1 r2 r3)[15]? = some "00" ∧
    (gsvFields true msg r0 r1 r2 r3)[19]? = some "00" := by
  refine ⟨rfl, rfl, rfl, rfl, rfl, ?_, ?_, ?_, ?_⟩ <;>
    · simp [gsvFields, satFields, gsvSnr]
      rfl

end GpsSim

namespace PpsSim

/-- Helper: a read whose wait predicate holds delivers the current counter
value, its decimal rendering (the caller's buffer being big enough), and
moves the cursor to the counter. -/
lemma pps_read_of_lt {ls c cnt : Nat} (sig : Bool) (h : ls < c)
    (hcnt : (renderEvent c).length ≤ cnt) :
    pps_read ls c sig cnt =
      (.delivered c (renderEvent c) (renderEvent c).length, c) := by
  simp only [pps_read, if_pos h, Nat.min_eq_left hcnt, List.take_length]

/-- Helper: a read whose wait predicate fails, with no signal pending, stays
blocked with the cursor untouched. -/
lemma pps_read_of_ge {ls c cnt : Nat} (h : c ≤ ls) :
    pps_read ls c false cnt = (.blocked, ls) := by
  simp [pps_read, show ¬ ls < c from Nat.not_lt.mpr h]

/-- Claim C6: attach initialises the cursor to the counter's current value; a
read blocks exactly while the counter has not passed the cursor, and on wake
it returns the new counter value (rendered in decimal ASCII) and stores it in
the cursor. -/
theorem C6_wait_contract (last_seen counter blockedAt count c0 : Nat) (sig : Bool)
    (hwake : last_seen < counter)
    (hcount : (renderEvent counter).length ≤ count)
    (hblocked : blockedAt ≤ last_seen) :
    pps_open c0 = c0 ∧
    pps_read last_seen blockedAt false count = (.blocked, last_seen) ∧
    pps_read last_seen counter sig count =
      (.delivered counter (renderEvent counter) (renderEvent counter).length, counter) :=
  ⟨rfl, pps_read_of_ge hblocked, pps_read_of_lt sig hwake hcount⟩

/-- Witness for C6 at cursor 5, counters 5 (blocked) and 6 (wake). -/
theorem C6_wait_contract_witness :
    pps_open 7 = 7 ∧
    pps_read 5 5 false 32 = (.blocked, 5) ∧
    pps_read 5 6 false 32 =
      (.delivered 6 (renderEvent 6) (renderEvent 6).length, 6) :=
  C6_wait_contract 5 6 5 32 7 false (by decide) (by decide) (by decide)

/-- Claim C7: a wait interrupted by a signal while blocked returns the
distinct interrupted outcome, carrying no event bytes, and the cursor's
last-seen value is unchanged. -/
theorem C7_interrupt_no_event (last_seen counter count : Nat)
    (hblocked : counter ≤ last_seen) :
    pps_read last_seen counter true count = (.interrupted, last_seen) := by
  simp [pps_read, show ¬ last_seen < counter from Nat.not_lt.mpr hblocked]

/-- Witness for C7 at cursor 5, counter 5. -/
theorem C7_interrupt_no_event_witness :
    pps_read 5 5 true 32 = (.interrupted, 5) :=
  C7_interrupt_no_event 5 5 32 (by decide)

/-- Claim C9: every consumer blocked when the counter advances once is woken
and observes the same new event id; a consumer attaching after that advance
gets a cursor equal to the advanced counter, blocks, and is served by the
next advance. -/
theorem C9_broadcast_wakeup (cursors : List Nat) (c count : Nat) (sig : Bool)
    (hpast : ∀ x ∈ cursors, x ≤ c)
    (hblocked : ∀ x ∈ cursors, pps_read x c false count = (.blocked, x))
    (hcount1 : (renderEvent (c + 1)).length ≤ count)
    (hcount2 : (renderEvent (c + 2)).length ≤ count) :
    (∀ x ∈ cursors, pps_read x (pps_timer_func c) sig count =
      (.delivered (c + 1) (renderEvent (c + 1)) (renderEvent (c + 1)).length, c + 1)) ∧
    pps_open (pps_timer_func c) = c + 1 ∧
    pps_read (pps_open (pps_timer_func c)) (pps_timer_func c) false count =
      (.blocked, c + 1) ∧
    pps_read (pps_open (pps_timer_func c)) (pps_timer_func (pps_timer_func c)) sig count =
      (.delivered (c + 2) (renderEvent (c + 2)) (renderEvent (c + 2)).length, c + 2) := by
  refine ⟨?_, rfl, pps_read_of_ge (Nat.le_refl _),
    pps_read_of_lt sig (Nat.lt_succ_self _) hcount2⟩
  intro x hx
  have hxle : x ≤ c := hpast x hx
  have hnlt : ¬ x < c := by
    intro hlt
    have hb := hblocked x hx
    simp [pps_read, hlt] at hb
  have hxeq : x = c := Nat.le_antisymm hxle (Nat.not_lt.mp hnlt)
  subst hxeq
  exact pps_read_of_lt sig (Nat.lt_succ_self _) hcount1

/-- Witness for C9 with two consumers blocked at counter 3. -/
theorem C9_broadcast_wakeup_witness :
    (∀ x ∈ [3, 3], pps_read x (pps_timer_func 3) false 32 =
      (.delivered 4 (renderEvent 4) (renderEvent 4).length, 4)) ∧
    pps_open (pps_timer_func 3) = 4 ∧
    pps_read (pps_open (pps_timer_func 3)) (pps_timer_func 3) false 32 =
      (.blocked, 4) ∧
    pps_read (pps_open (pps_timer_func 3)) (pps_timer_func (pps_timer_func 3)) false 32 =
      (.delivered 5 (renderEvent 5) (renderEvent 5).length, 5) :=
  C9_broadcast_wakeup [3, 3] 3 32 false (by decide) (by decide) (by decide) (by decide)

end PpsSim

namespace GpsSim

/-- Configuration used as the initial one in the C8 counterexample. -/
def cfgA : GpsConfig := ⟨-35315075, 149129404, 0, false⟩

/-- Configuration the C8 counterexample switches to mid-run. -/
def cfgB : GpsConfig := ⟨10000000, 149129404, 0, false⟩

/-- Counterexample to claim C8: the claim says a mid-run change of start_lat
has no effect on subsequent positions, but ticking a state derived from
cfgA (lat 35 deg) under cfgB (start_lat = 10000000) yields lat 10 deg: the
tick re-derives the position from the current parameters. -/
theorem C8_counterexample :
    (update_coordinates_from_param cfgA).latDeg = 35 ∧
    (gpsTickCoords cfgB ⟨0, true, 0, true⟩
      ⟨⟨12, 35, 19⟩, update_coordinates_from_param cfgA⟩).pos.latDeg = 10 ∧
    (gpsTickCoords cfgB ⟨0, true, 0, true⟩
      ⟨⟨12, 35, 19⟩, update_coordinates_from_param cfgA⟩).pos.latDeg ≠
      (update_coordinates_from_param cfgA).latDeg := by
  decide

/-- Amended claim C8: the position fields are derived at startup and then
re-derived from start_lat/start_lon at the beginning of every tick, before
jitter; hence the post-tick position depends only on the current parameters
(and the tick's draws), never on the previous position, and a mid-run
parameter change takes effect on the next tick. -/
theorem C8_amended_recompute (cfg : GpsConfig) (r : TickRand) (s t : GpsState) :
    (gpsTickCoords cfg r s).pos.latDeg = (deriveCoord cfg.start_lat).deg ∧
    (gpsTickCoords cfg r s).pos.latMinInt = (deriveCoord cfg.start_lat).minInt ∧
    (gpsTickCoords cfg r s).pos.lonDeg = (deriveCoord cfg.start_lon).deg ∧
    (gpsTickCoords cfg r s).pos.lonMinInt = (deriveCoord cfg.start_lon).minInt ∧
    (gpsTickCoords cfg r s).pos = (gpsTickCoords cfg r t).pos :=
  ⟨rfl, rfl, rfl, rfl, rfl⟩

/-- Claim C10: jitter does not accumulate: after any number of ticks from any
starting state, the fractional minutes rendered by the last tick equal
clamp(derived_fraction + d, 0, 9999) for a single-tick offset d with
magnitude at most 19. -/
theorem C10_jitter_no_accumulation (cfg : GpsConfig) (rs : List TickRand)
    (r : TickRand) (s : GpsState) :
    ∃ dLat dLon : Int, dLat.natAbs ≤ 19 ∧ dLon.natAbs ≤ 19 ∧
      (gpsTickCoords cfg r
          (rs.foldl (fun st rr => gpsTickCoords cfg rr st) s)).pos.latMinFrac =
        clampFrac (((deriveCoord cfg.start_lat).minFrac : Int) + dLat) ∧
      (gpsTickCoords cfg r
          (rs.foldl (fun st rr => gpsTickCoords cfg rr st) s)).pos.lonMinFrac =
        clampFrac (((deriveCoord cfg.start_lon).minFrac : Int) + dLon) := by
  obtain ⟨dLat, hdLat, hLat⟩ :=
    applyJitter_form ((deriveCoord cfg.start_lat).minFrac : Int) r.latJit r.latAdd
  obtain ⟨dLon, hdLon, hLon⟩ :=
    applyJitter_form ((deriveCoord cfg.start_lon).minFrac : Int) r.lonJit r.lonAdd
  exact ⟨dLat, dLon, hdLat, hdLon,
    by rw [gpsTick_latMinFrac, hLat], by rw [gpsTick_lonMinFrac, hLon]⟩

end GpsSim
